import Mathlib

/-!
Verification of the AI Operations Assistant multi-agent pipeline.

Shallow embedding of the orchestration core: the Plan/Step/Result data
model (src/llm/schemas.py), the dependency-aware Executor
(src/agents/executor.py), the Verifier scoring pass
(src/agents/verifier.py), the Orchestrator state machine
(src/agents/orchestrator.py), and the TTL result cache
(src/utils/cache.py) together with its use by the weather tool
(src/tools/weather_tool.py).

External collaborators (the LLM transport, the concrete tool network
calls) are modelled as oracle functions; a raised Python exception is an
Except.error value carrying the exception message. Wall-clock fields
(completed_at timestamps, elapsed milliseconds) are not modelled except
where a claim depends on them; the cache model carries an explicit Nat
clock.
-/

namespace AiOps

/-- Tool-level result record (src/tools/base.py, class ToolResult). The
data payload is opaque to the orchestration core and is modelled as an
optional string. -/
structure RawToolResult where
  success : Bool
  data : Option String := none
  error : Option String := none
  execution_time_ms : Nat := 0
  cached : Bool := false
deriving DecidableEq

/-- Step-level result record (src/llm/schemas.py, class ToolResult): the
raw tool result annotated with the tool and action that produced it. -/
structure ToolResult where
  tool : String
  action : String
  success : Bool
  data : Option String := none
  error : Option String := none
  execution_time_ms : Nat := 0
  cached : Bool := false
deriving DecidableEq

/-- Result of one executed plan step (src/llm/schemas.py, class
StepResult). The completed_at wall-clock timestamp is not modelled. -/
structure StepResult where
  step_number : Nat
  tool_result : ToolResult
deriving DecidableEq

/-- Parameter mapping of a step, a string-keyed dictionary whose values
are opaque to the orchestration core. -/
abbrev Params := List (String × String)

/-- One step of an execution plan (src/llm/schemas.py, class PlanStep). -/
structure PlanStep where
  step_number : Nat
  tool : String
  action : String
  parameters : Params := []
  reasoning : String := ""
  depends_on : List Nat := []
deriving DecidableEq

/-- Execution plan (src/llm/schemas.py, class ExecutionPlan). -/
structure ExecutionPlan where
  task_understanding : String := ""
  steps : List PlanStep
  expected_output : String := ""
deriving DecidableEq

/-- Registry dispatch oracle (src/tools/registry.py,
ToolRegistry.execute): given tool name, action and parameters it either
returns the raw tool result or raises, modelled as Except.error carrying
the message. This covers the KeyError raised for an unknown tool name as
well as any exception escaping a provider. -/
abbrev Registry := String → String → Params → Except String RawToolResult

/-- Dependency check (src/agents/executor.py, _dependencies_met): every
id in depends_on must be in the completed set; an empty depends_on is
trivially met. -/
def dependencies_met (step : PlanStep) (completed : List Nat) : Bool :=
  step.depends_on.all (fun dep => completed.contains dep)

/-- StepResult built from a registry dispatch that returned
(src/agents/executor.py lines 88-100). -/
def mkStepResult (step : PlanStep) (tr : RawToolResult) : StepResult :=
  ⟨step.step_number,
   ⟨step.tool, step.action, tr.success, tr.data, tr.error,
    tr.execution_time_ms, tr.cached⟩⟩

/-- Failed StepResult recorded when registry dispatch raises in the
first pass (src/agents/executor.py lines 120-136): success false, no
data, the exception message as error, zero execution time. -/
def mkFaultResult (step : PlanStep) (msg : String) : StepResult :=
  ⟨step.step_number, ⟨step.tool, step.action, false, none, some msg, 0, false⟩⟩

/-- Joint outcome of the first pass: the recorded StepResults plus the
trace of steps whose dispatch was actually attempted, in order. -/
structure ExecOutcome where
  results : List StepResult
  dispatched : List PlanStep
deriving DecidableEq

/-- First execution pass (src/agents/executor.py, ExecutorAgent.run):
walk the steps in plan order; dispatch a step only when its dependencies
are met; add the step number to the completed set only when the tool
reports success; convert a raised dispatch into a failed StepResult;
skip a step with unmet dependencies without recording anything. -/
def executorRunAux (reg : Registry) : List PlanStep → List Nat → ExecOutcome
  | [], _ => ⟨[], []⟩
  | step :: rest, completed =>
    if dependencies_met step completed then
      match reg step.tool step.action step.parameters with
      | Except.ok tr =>
        let next := executorRunAux reg rest
          (if tr.success then completed ++ [step.step_number] else completed)
        ⟨mkStepResult step tr :: next.results, step :: next.dispatched⟩
      | Except.error msg =>
        let next := executorRunAux reg rest completed
        ⟨mkFaultResult step msg :: next.results, step :: next.dispatched⟩
    else
      executorRunAux reg rest completed

/-- Result list returned by ExecutorAgent.run on a plan, starting from
an empty completed set. -/
def executorRun (reg : Registry) (plan : ExecutionPlan) : List StepResult :=
  (executorRunAux reg plan.steps []).results

/-- Whether a dispatch of the given step reports success (a raised
dispatch counts as no success). -/
def stepSuccess (reg : Registry) (step : PlanStep) : Bool :=
  match reg step.tool step.action step.parameters with
  | Except.ok tr => tr.success
  | Except.error _ => false

/-- Whether a dispatch of the given step returns without raising. -/
def dispatchOk (reg : Registry) (step : PlanStep) : Bool :=
  match reg step.tool step.action step.parameters with
  | Except.ok _ => true
  | Except.error _ => false

/-- StepResult that a dispatch of the given step produces: the wrapped
tool result when the dispatch returns, the failure record when it
raises. -/
def stepOutcome (reg : Registry) (step : PlanStep) : StepResult :=
  match reg step.tool step.action step.parameters with
  | Except.ok tr => mkStepResult step tr
  | Except.error msg => mkFaultResult step msg

/-- Gating condition as the specification states it: each dispatched
step must have every dependency inside the set of step numbers whose own
dispatch reported success, the set being rebuilt from scratch along the
dispatch trace. Stated from the claim text, to be compared with the
trace the embedded Executor produces. -/
def specGatedDispatch (reg : Registry) : List Nat → List PlanStep → Bool
  | _, [] => true
  | completed, step :: rest =>
    dependencies_met step completed &&
      specGatedDispatch reg
        (if stepSuccess reg step then completed ++ [step.step_number] else completed)
        rest

theorem executorRunAux_results_eq (reg : Registry) :
    ∀ (steps : List PlanStep) (completed : List Nat),
      (executorRunAux reg steps completed).results
        = (executorRunAux reg steps completed).dispatched.map (stepOutcome reg) := by
  intro steps
  induction steps with
  | nil => intro c; rfl
  | cons step rest ih =>
    intro c
    unfold executorRunAux
    cases hd : dependencies_met step c
    · simp only [Bool.false_eq_true, if_false]
      exact ih c
    · simp only [if_true]
      cases hr : reg step.tool step.action step.parameters with
      | ok tr => simp [stepOutcome, hr, ih]
      | error msg => simp [stepOutcome, hr, ih]

theorem executorRunAux_gated (reg : Registry) :
    ∀ (steps : List PlanStep) (completed : List Nat),
      specGatedDispatch reg completed (executorRunAux reg steps completed).dispatched = true := by
  intro steps
  induction steps with
  | nil => intro c; rfl
  | cons step rest ih =>
    intro c
    unfold executorRunAux
    cases hd : dependencies_met step c
    · simp only [Bool.false_eq_true, if_false]
      exact ih c
    · simp only [if_true]
      cases hr : reg step.tool step.action step.parameters with
      | ok tr =>
        cases hs : tr.success
        · simp [specGatedDispatch, stepSuccess, hr, hs, hd, ih]
        · simp [specGatedDispatch, stepSuccess, hr, hs, hd, ih]
      | error msg =>
        simp [specGatedDispatch, stepSuccess, hr, hd, ih]

theorem executorRunAux_dispatched_length_le (reg : Registry) :
    ∀ (steps : List PlanStep) (completed : List Nat),
      (executorRunAux reg steps completed).dispatched.length ≤ steps.length := by
  intro steps
  induction steps with
  | nil => intro c; exact Nat.le_refl 0
  | cons step rest ih =>
    intro c
    unfold executorRunAux
    cases hd : dependencies_met step c
    · simp only [Bool.false_eq_true, if_false]
      exact Nat.le_succ_of_le (ih c)
    · simp only [if_true]
      cases hr : reg step.tool step.action step.parameters with
      | ok tr => simpa using Nat.succ_le_succ (ih _)
      | error msg => simpa using Nat.succ_le_succ (ih c)

/-- Registry whose dispatches always return an unsuccessful tool result,
used to exhibit a skipped step. -/
def skipDemoRegistry : Registry :=
  fun _ _ _ => Except.ok ⟨false, none, some "api down", 3, false⟩

/-- Two-step demo plan in which step 2 depends on step 1. -/
def skipDemoPlan : ExecutionPlan :=
  ⟨"demo",
   [⟨1, "weather", "get_current_weather", [("city", "London")], "", []⟩,
    ⟨2, "news", "top_headlines", [], "", [1]⟩],
   "demo"⟩

/-- C2: during the first pass a step is dispatched only when every id in
its depends_on is among the step numbers whose own dispatch reported
success; every recorded StepResult comes from a dispatched step, so a
skipped step contributes nothing and the result list can be shorter than
the plan, as the closed demo instance shows. -/
theorem executor_first_pass_dependency_gating (reg : Registry) (plan : ExecutionPlan) :
    specGatedDispatch reg [] (executorRunAux reg plan.steps []).dispatched = true
    ∧ (executorRunAux reg plan.steps []).results
        = ((executorRunAux reg plan.steps []).dispatched).map (stepOutcome reg)
    ∧ (executorRun reg plan).length ≤ plan.steps.length
    ∧ (executorRun skipDemoRegistry skipDemoPlan).length < skipDemoPlan.steps.length := by
  refine ⟨executorRunAux_gated reg plan.steps [], executorRunAux_results_eq reg plan.steps [], ?_, ?_⟩
  · have h := executorRunAux_dispatched_length_le reg plan.steps []
    have h2 := executorRunAux_results_eq reg plan.steps []
    unfold executorRun
    rw [h2, List.length_map]
    exact h
  · decide

/-- Joint outcome of a targeted retry: the list the call returns, the
updated stored result sequence (the mutation of self.results), and the
trace of steps actually dispatched through the registry, in order. -/
structure RetryOutcome where
  retry_results : List StepResult
  results : List StepResult
  invoked : List PlanStep
deriving DecidableEq

/-- In-place replacement loop of retry_steps (src/agents/executor.py
lines 202-206): scan the stored results and overwrite the first entry
carrying the same step_number, then stop; a list with no such entry is
returned unchanged. -/
def replaceFirst : List StepResult → StepResult → List StepResult
  | [], _ => []
  | r :: rest, sr =>
    if r.step_number == sr.step_number then sr :: rest
    else r :: replaceFirst rest sr

/-- Core loop of the targeted retry (src/agents/executor.py,
ExecutorAgent.retry_steps lines 176-210): each selected step is
dispatched once; a dispatch that returns yields a fresh StepResult that
is both appended to the returned retry list and substituted in place
into the stored results; a dispatch that raises is only logged, so
nothing is recorded anywhere for it. -/
def retryStepsAux (reg : Registry) : List PlanStep → List StepResult → RetryOutcome
  | [], results => ⟨[], results, []⟩
  | step :: rest, results =>
    match reg step.tool step.action step.parameters with
    | Except.ok tr =>
      let sr := mkStepResult step tr
      let next := retryStepsAux reg rest (replaceFirst results sr)
      ⟨sr :: next.retry_results, next.results, step :: next.invoked⟩
    | Except.error _ =>
      let next := retryStepsAux reg rest results
      ⟨next.retry_results, next.results, step :: next.invoked⟩

/-- Targeted retry (src/agents/executor.py, ExecutorAgent.retry_steps):
the selected steps are the plan steps whose step_number is in the given
list, taken in plan order (line 174). -/
def retry_steps (reg : Registry) (steps : List Nat) (plan : ExecutionPlan)
    (results : List StepResult) : RetryOutcome :=
  retryStepsAux reg (plan.steps.filter (fun s => steps.contains s.step_number)) results

theorem replaceFirst_map_step_number (sr : StepResult) :
    ∀ results : List StepResult,
      (replaceFirst results sr).map (fun r => r.step_number)
        = results.map (fun r => r.step_number) := by
  intro results
  induction results with
  | nil => rfl
  | cons r rest ih =>
    unfold replaceFirst
    cases hb : r.step_number == sr.step_number
    · simp [ih]
    · have he : r.step_number = sr.step_number := by simpa using hb
      simp [he]

theorem replaceFirst_mem (sr : StepResult) :
    ∀ (results : List StepResult) (x : StepResult),
      x ∈ replaceFirst results sr → x ∈ results ∨ x = sr := by
  intro results
  induction results with
  | nil => intro x hx; exact absurd hx (List.not_mem_nil x)
  | cons r rest ih =>
    intro x hx
    unfold replaceFirst at hx
    cases hb : r.step_number == sr.step_number
    · rw [hb] at hx
      simp only [Bool.false_eq_true, if_false, List.mem_cons] at hx
      rcases hx with hx | hx
      · exact Or.inl (by simp [hx])
      · rcases ih x hx with h | h
        · exact Or.inl (List.mem_cons_of_mem r h)
        · exact Or.inr h
    · rw [hb] at hx
      simp only [if_true, List.mem_cons] at hx
      rcases hx with hx | hx
      · exact Or.inr hx
      · exact Or.inl (List.mem_cons_of_mem r hx)

theorem retryStepsAux_map_step_number (reg : Registry) :
    ∀ (l : List PlanStep) (res : List StepResult),
      (retryStepsAux reg l res).results.map (fun r => r.step_number)
        = res.map (fun r => r.step_number) := by
  intro l
  induction l with
  | nil => intro res; rfl
  | cons step rest ih =>
    intro res
    unfold retryStepsAux
    cases hr : reg step.tool step.action step.parameters with
    | ok tr =>
      simp only []
      rw [ih, replaceFirst_map_step_number]
    | error msg =>
      exact ih res

theorem retryStepsAux_mem (reg : Registry) :
    ∀ (l : List PlanStep) (res : List StepResult) (x : StepResult),
      x ∈ (retryStepsAux reg l res).results
        → x ∈ res ∨ x ∈ (retryStepsAux reg l res).retry_results := by
  intro l
  induction l with
  | nil => intro res x hx; exact Or.inl hx
  | cons step rest ih =>
    intro res x hx
    unfold retryStepsAux
    unfold retryStepsAux at hx
    cases hr : reg step.tool step.action step.parameters with
    | ok tr =>
      rw [hr] at hx
      simp only [] at hx
      rcases ih (replaceFirst res (mkStepResult step tr)) x hx with h | h
      · rcases replaceFirst_mem (mkStepResult step tr) res x h with h2 | h2
        · exact Or.inl h2
        · simp [hr, h2]
      · simp [hr]
        right; right
        exact h
    | error msg =>
      rw [hr] at hx
      rcases ih res x hx with h | h
      · exact Or.inl h
      · simp [hr]
        exact Or.inr h

theorem retryStepsAux_retry_results (reg : Registry) :
    ∀ (l : List PlanStep) (res : List StepResult),
      (retryStepsAux reg l res).retry_results
        = (l.filter (fun s => dispatchOk reg s)).map (stepOutcome reg) := by
  intro l
  induction l with
  | nil => intro res; rfl
  | cons step rest ih =>
    intro res
    unfold retryStepsAux
    cases hr : reg step.tool step.action step.parameters with
    | ok tr =>
      simp [List.filter_cons, dispatchOk, stepOutcome, hr, ih]
    | error msg =>
      simp [List.filter_cons, dispatchOk, hr, ih]

theorem retryStepsAux_results_foldl (reg : Registry) :
    ∀ (l : List PlanStep) (res : List StepResult),
      (retryStepsAux reg l res).results
        = (retryStepsAux reg l res).retry_results.foldl replaceFirst res := by
  intro l
  induction l with
  | nil => intro res; rfl
  | cons step rest ih =>
    intro res
    unfold retryStepsAux
    cases hr : reg step.tool step.action step.parameters with
    | ok tr => simp [List.foldl_cons, ih]
    | error msg => exact ih res

/-- Registry whose dispatches always return a successful tool result. -/
def okDemoRegistry : Registry :=
  fun _ _ _ => Except.ok ⟨true, some "data", none, 7, false⟩

/-- One-step demo plan with step number 1. -/
def retryDemoPlan : ExecutionPlan :=
  ⟨"demo", [⟨1, "weather", "get_current_weather", [("city", "Paris")], "", []⟩], "demo"⟩

/-- C4 counterexample: retrying step 1 against an empty stored result
sequence produces a fresh StepResult (the returned retry list is
non-empty) but the stored result sequence stays empty — the fresh result
is never appended, contradicting the claim that it is appended when no
prior entry for that step_number exists. -/
theorem retry_steps_no_append_counterexample :
    (retry_steps okDemoRegistry [1] retryDemoPlan []).retry_results ≠ []
    ∧ (retry_steps okDemoRegistry [1] retryDemoPlan []).results = [] := by
  constructor
  · decide
  · decide

/-- C4 amended: a targeted retry rewrites the stored result sequence
strictly in place — the step_number at every position is unchanged and
every entry is either an original entry or one of the fresh retry
results substituted at the position of the entry it replaces; when no
prior entry for a retried step_number exists nothing is appended, so the
sequence keeps exactly its former length (in particular it never
decreases). -/
theorem retry_steps_replaces_in_place (reg : Registry) (steps : List Nat)
    (plan : ExecutionPlan) (results : List StepResult) :
    (retry_steps reg steps plan results).results.map (fun r => r.step_number)
      = results.map (fun r => r.step_number)
    ∧ (retry_steps reg steps plan results).results.length = results.length
    ∧ ∀ x : StepResult, x ∈ (retry_steps reg steps plan results).results
        → x ∈ results ∨ x ∈ (retry_steps reg steps plan results).retry_results := by
  refine ⟨retryStepsAux_map_step_number reg _ results, ?_, ?_⟩
  · have h := retryStepsAux_map_step_number reg
      (plan.steps.filter (fun s => steps.contains s.step_number)) results
    have h2 := congrArg List.length h
    unfold retry_steps
    simpa using h2
  · intro x hx
    exact retryStepsAux_mem reg _ results x hx

/-- Prior failed entry for step 1, used by the C4 witness. -/
def oldFail1 : StepResult :=
  ⟨1, ⟨"weather", "get_current_weather", false, none, some "timeout", 44, false⟩⟩

/-- Witness for the C4 theorem at a concrete input: retrying step 1 over
a stored sequence holding one failed entry for step 1 keeps the sequence
at length one with step_number 1 in place, and the replacing entry is
one of the fresh retry results. -/
theorem retry_steps_replaces_in_place_witness :
    (retry_steps okDemoRegistry [1] retryDemoPlan [oldFail1]).results.map
        (fun r => r.step_number) = [1]
    ∧ (mkStepResult ⟨1, "weather", "get_current_weather", [("city", "Paris")], "", []⟩
          ⟨true, some "data", none, 7, false⟩ ∈ ([oldFail1] : List StepResult)
       ∨ mkStepResult ⟨1, "weather", "get_current_weather", [("city", "Paris")], "", []⟩
          ⟨true, some "data", none, 7, false⟩
          ∈ (retry_steps okDemoRegistry [1] retryDemoPlan [oldFail1]).retry_results) := by
  have h := retry_steps_replaces_in_place okDemoRegistry [1] retryDemoPlan [oldFail1]
  refine ⟨h.1.trans (by decide), ?_⟩
  exact h.2.2 _ (by decide)

/-- Demo plan with two independent steps numbered 1 and 2. -/
def twoStepDemoPlan : ExecutionPlan :=
  ⟨"demo",
   [⟨1, "weather", "get_current_weather", [], "", []⟩,
    ⟨2, "news", "top_headlines", [], "", []⟩],
   "demo"⟩

/-- C8 counterexample: asking the targeted retry for steps in the order
2 then 1 dispatches them in plan order 1 then 2, contradicting the claim
that the caller-listed order is followed. -/
theorem retry_order_counterexample :
    (retry_steps okDemoRegistry [2, 1] twoStepDemoPlan []).invoked.map
        (fun s => s.step_number) = [1, 2]
    ∧ ([1, 2] : List Nat) ≠ [2, 1] := by
  constructor
  · decide
  · decide

theorem retryStepsAux_invoked (reg : Registry) :
    ∀ (l : List PlanStep) (res : List StepResult), (retryStepsAux reg l res).invoked = l := by
  intro l
  induction l with
  | nil => intro res; rfl
  | cons step rest ih =>
    intro res
    unfold retryStepsAux
    cases hr : reg step.tool step.action step.parameters with
    | ok tr => simp [ih]
    | error msg => simp [ih]

/-- C8 amended: the targeted retry dispatches exactly the plan steps
whose step_number is in the caller list, once each, in plan order — not
in the caller-listed order; caller entries absent from the plan cause no
dispatch. -/
theorem retry_invocations_plan_order (reg : Registry) (steps : List Nat)
    (plan : ExecutionPlan) (results : List StepResult) :
    (retry_steps reg steps plan results).invoked
      = plan.steps.filter (fun s => steps.contains s.step_number) := by
  exact retryStepsAux_invoked reg _ results

/-- Registry whose dispatches always raise with message boom. -/
def faultDemoRegistry : Registry := fun _ _ _ => Except.error "boom"

/-- Prior successful entry for step 1, used by the C9 counterexample. -/
def oldOk1 : StepResult :=
  ⟨1, ⟨"weather", "get_current_weather", true, some "old", none, 5, false⟩⟩

/-- C9 counterexample: during a targeted retry a raising dispatch is
swallowed — the step is dispatched (the trace is non-empty) yet the
returned retry list is empty and the stored sequence still holds only
the prior successful entry, so no failed StepResult carrying the fault
message is recorded anywhere, contradicting the claim for the retry
pass. -/
theorem retry_fault_not_recorded :
    (retryStepsAux faultDemoRegistry
        [⟨1, "weather", "get_current_weather", [], "", []⟩] [oldOk1]).invoked ≠ []
    ∧ (retryStepsAux faultDemoRegistry
        [⟨1, "weather", "get_current_weather", [], "", []⟩] [oldOk1]).retry_results = []
    ∧ (retryStepsAux faultDemoRegistry
        [⟨1, "weather", "get_current_weather", [], "", []⟩] [oldOk1]).results = [oldOk1] := by
  refine ⟨?_, ?_, ?_⟩
  · decide
  · decide
  · decide

/-- C9 amended: in the first pass every recorded StepResult is the
dispatch outcome of its step, and a raising dispatch yields the failure
record (success false, zero execution time, the fault message as error);
in the targeted retry only dispatches that return produce StepResults —
a raising dispatch is swallowed, leaving both the returned retry list
and the stored sequence untouched by it (the stored sequence is exactly
the fold of in-place substitutions of the fresh results). In neither
pass does a fault propagate out of the Executor, both embeddings being
total functions. -/
theorem executor_fault_capture (reg : Registry) (steps : List PlanStep)
    (completed : List Nat) (l : List PlanStep) (res : List StepResult) :
    (executorRunAux reg steps completed).results
      = (executorRunAux reg steps completed).dispatched.map (stepOutcome reg)
    ∧ (∀ (step : PlanStep) (msg : String),
        reg step.tool step.action step.parameters = Except.error msg →
          stepOutcome reg step = mkFaultResult step msg)
    ∧ (retryStepsAux reg l res).retry_results
        = (l.filter (fun s => dispatchOk reg s)).map (stepOutcome reg)
    ∧ (retryStepsAux reg l res).results
        = (retryStepsAux reg l res).retry_results.foldl replaceFirst res := by
  refine ⟨executorRunAux_results_eq reg steps completed, ?_, ?_, ?_⟩
  · intro step msg hmsg
    unfold stepOutcome
    rw [hmsg]
  · exact retryStepsAux_retry_results reg l res
  · exact retryStepsAux_results_foldl reg l res

/-- Witness for the C9 theorem at a concrete input: the always-raising
registry turns the single-step first pass into one failed StepResult
with success false, zero time and the fault message, and its targeted
retry records nothing. -/
theorem executor_fault_capture_witness :
    stepOutcome faultDemoRegistry ⟨1, "weather", "get_current_weather", [], "", []⟩
      = mkFaultResult ⟨1, "weather", "get_current_weather", [], "", []⟩ "boom"
    ∧ (retryStepsAux faultDemoRegistry
        [⟨2, "news", "top_headlines", [], "", []⟩] []).retry_results = [] := by
  have h := executor_fault_capture faultDemoRegistry
    [⟨1, "weather", "get_current_weather", [], "", []⟩] []
    [⟨2, "news", "top_headlines", [], "", []⟩] []
  refine ⟨h.2.1 _ "boom" rfl, ?_⟩
  exact h.2.2.1.trans (by decide)

/-- Verification record (src/llm/schemas.py, class VerificationResult).
The status enum is a string enum in the source and is modelled by its
string values complete, partial and failed. -/
structure VerificationResult where
  status : String
  completeness_score : ℚ
  missing_data : List String := []
  quality_issues : List String := []
  suggestions : List String := []
  retry_steps : List Nat := []
deriving DecidableEq

/-- Number of successful StepResults (src/agents/verifier.py line 92). -/
def successCount (results : List StepResult) : Nat :=
  (results.filter (fun r => r.tool_result.success)).length

/-- Python string rendering of an optional string, where a missing value
prints as None. -/
def optionText : Option String → String
  | some s => s
  | none => "None"

/-- Failure line collected into missing_data (src/agents/verifier.py
lines 112-115). -/
def stepFailureMessage (r : StepResult) : String :=
  "Step " ++ toString r.step_number ++ " (" ++ r.tool_result.tool ++ "."
    ++ r.tool_result.action ++ ") failed: " ++ optionText r.tool_result.error

/-- Quality line collected for a successful step with empty data
(src/agents/verifier.py lines 118-120). -/
def stepEmptyDataMessage (r : StepResult) : String :=
  "Step " ++ toString r.step_number ++ " returned empty data"

/-- Status chain of the Verifier (src/agents/verifier.py lines 122-128):
at least 0.9 is complete, at least 0.5 is partial, anything lower is
failed. -/
def verifyStatus (completeness : ℚ) : String :=
  if (9 : ℚ)/10 ≤ completeness then "complete"
  else if (1 : ℚ)/2 ≤ completeness then "partial"
  else "failed"

/-- Scoring pass of the Verifier (src/agents/verifier.py,
VerifierAgent._verify_results): an empty result list short-circuits to a
failed record with score zero; otherwise the score is successes over
attempted, failures contribute a missing_data line and a retry
candidate, successful steps with empty data contribute a quality line,
and the collected lists are capped at 5, 5, 3 and 3 entries. -/
def verify_results (results : List StepResult) : VerificationResult :=
  if results.length = 0 then
    ⟨"failed", 0,
     ["No steps were executed"],
     ["Empty execution results"],
     ["Verify the task can be understood and appropriate tools are available"],
     []⟩
  else
    let completeness : ℚ := (successCount results : ℚ) / (results.length : ℚ)
    let failed := results.filter (fun r => !r.tool_result.success)
    let missing_data := failed.map stepFailureMessage
    let quality_issues :=
      (results.filter
        (fun r => r.tool_result.success && r.tool_result.data == none)).map
        stepEmptyDataMessage
    let retrySel := failed.map (fun r => r.step_number)
    let suggestions :=
      (if retrySel.isEmpty then []
       else ["Consider retrying failed steps: " ++ toString retrySel]) ++
      (if completeness < 1 then ["Some data may be incomplete - results are partial"] else [])
    ⟨verifyStatus completeness, completeness,
     missing_data.take 5, quality_issues.take 5, suggestions.take 3, retrySel.take 3⟩

theorem verifyStatus_spec (c : ℚ) :
    (verifyStatus c = "complete" ↔ (9 : ℚ)/10 ≤ c)
    ∧ (verifyStatus c = "partial" ↔ ((1 : ℚ)/2 ≤ c ∧ c < (9 : ℚ)/10))
    ∧ (verifyStatus c = "failed" ↔ c < (1 : ℚ)/2) := by
  by_cases h9 : (9 : ℚ)/10 ≤ c
  · have hns : verifyStatus c = "complete" := by
      unfold verifyStatus; rw [if_pos h9]
    refine ⟨?_, ?_, ?_⟩
    · rw [hns]; exact ⟨fun _ => h9, fun _ => rfl⟩
    · rw [hns]
      constructor
      · intro h; exact absurd h (by decide)
      · intro h; linarith [h.2]
    · rw [hns]
      constructor
      · intro h; exact absurd h (by decide)
      · intro h; linarith
  · by_cases h5 : (1 : ℚ)/2 ≤ c
    · have hns : verifyStatus c = "partial" := by
        unfold verifyStatus; rw [if_neg h9, if_pos h5]
      refine ⟨?_, ?_, ?_⟩
      · rw [hns]
        constructor
        · intro h; exact absurd h (by decide)
        · intro h; exact absurd h h9
      · rw [hns]; exact ⟨fun _ => ⟨h5, lt_of_not_le h9⟩, fun _ => rfl⟩
      · rw [hns]
        constructor
        · intro h; exact absurd h (by decide)
        · intro h; linarith
    · have hns : verifyStatus c = "failed" := by
        unfold verifyStatus; rw [if_neg h9, if_neg h5]
      refine ⟨?_, ?_, ?_⟩
      · rw [hns]
        constructor
        · intro h; exact absurd h (by decide)
        · intro h; exact absurd h h9
      · rw [hns]
        constructor
        · intro h; exact absurd h (by decide)
        · intro h; exact absurd h.1 h5
      · rw [hns]; exact ⟨fun _ => lt_of_not_le h5, fun _ => rfl⟩

/-- C3: on a non-empty result list the completeness score is the number
of successful StepResults divided by the number of StepResults, the
status is complete exactly when the score is at least 0.9, partial
exactly when it lies in [0.5, 0.9), failed exactly when it is below 0.5;
on an empty list the score is 0 and the status is failed. -/
theorem verifier_completeness_scoring (r : StepResult) (rs : List StepResult) :
    (verify_results (r :: rs)).completeness_score
        = (successCount (r :: rs) : ℚ) / ((r :: rs).length : ℚ)
    ∧ ((verify_results (r :: rs)).status = "complete"
        ↔ (9 : ℚ)/10 ≤ (verify_results (r :: rs)).completeness_score)
    ∧ ((verify_results (r :: rs)).status = "partial"
        ↔ ((1 : ℚ)/2 ≤ (verify_results (r :: rs)).completeness_score
            ∧ (verify_results (r :: rs)).completeness_score < (9 : ℚ)/10))
    ∧ ((verify_results (r :: rs)).status = "failed"
        ↔ (verify_results (r :: rs)).completeness_score < (1 : ℚ)/2)
    ∧ (verify_results ([] : List StepResult)).completeness_score = 0
    ∧ (verify_results ([] : List StepResult)).status = "failed" := by
  have hsc : (verify_results (r :: rs)).completeness_score
      = (successCount (r :: rs) : ℚ) / ((r :: rs).length : ℚ) := rfl
  have hst : (verify_results (r :: rs)).status
      = verifyStatus ((successCount (r :: rs) : ℚ) / ((r :: rs).length : ℚ)) := rfl
  have h := verifyStatus_spec ((successCount (r :: rs) : ℚ) / ((r :: rs).length : ℚ))
  refine ⟨hsc, ?_, ?_, ?_, rfl, rfl⟩
  · rw [hst, hsc]; exact h.1
  · rw [hst, hsc]; exact h.2.1
  · rw [hst, hsc]; exact h.2.2

/-- Failed-step selection of the Orchestrator retry loop
(src/agents/orchestrator.py lines 184-188): the selected numbers are the
positions of the unsuccessful entries in the result list, shifted by
one. Note this is the list position, not the recorded step_number. -/
def handleRetriesFailedSteps (results : List StepResult) : List Nat :=
  (results.enum.filter (fun p => !p.2.tool_result.success)).map (fun p => p.1 + 1)

/-- Selection stated by the claim: the step_number fields of the
unsuccessful StepResults. Stated from the claim text, to be compared
with the selection the code performs. -/
def claimedFailedStepNumbers (results : List StepResult) : List Nat :=
  (results.filter (fun r => !r.tool_result.success)).map (fun r => r.step_number)

/-- Failed StepResult for step 2, standing alone in the result list
because step 1 was skipped, so that its list position is 0 while its
step_number is 2. -/
def skippedFailDemo : StepResult :=
  ⟨2, ⟨"news", "top_headlines", false, none, some "boom", 0, false⟩⟩

/-- C5: the retry selection the Orchestrator computes at the failing
input is the positional index plus one, [1], while the claimed selection
by step_number is [2]; capping to the first 3 does not mask the
difference. The code therefore retries by list position, not by
step_number. -/
theorem retry_selection_positional :
    (handleRetriesFailedSteps [skippedFailDemo]).take 3 = [1]
    ∧ (claimedFailedStepNumbers [skippedFailDemo]).take 3 = [2]
    ∧ handleRetriesFailedSteps [skippedFailDemo]
        ≠ claimedFailedStepNumbers [skippedFailDemo] := by
  refine ⟨?_, ?_, ?_⟩
  · decide
  · decide
  · decide

/-- Final user-facing output (src/llm/schemas.py, class FinalOutput).
Only the fields the Orchestrator inspects or passes through are kept;
the data and execution_details maps are opaque at this level. -/
structure FinalOutput where
  task : String
  status : String
  summary : String
  errors : List String := []
deriving DecidableEq

/-- States of the orchestration workflow (src/agents/orchestrator.py,
class OrchestratorState). -/
inductive OrchestratorState where
  | idle
  | planning
  | executing
  | verifying
  | retrying
  | complete
  | error
deriving DecidableEq

/-- Result object of a full orchestration run
(src/agents/orchestrator.py, class OrchestratorResult). The
execution_time_ms wall-clock field is not modelled. -/
structure OrchestratorResult where
  state : OrchestratorState
  output : Option FinalOutput := none
  plan : Option ExecutionPlan := none
  error : Option String := none
deriving DecidableEq

/-- Phase oracles seen by the Orchestrator: the Planner run, the
Executor first pass, the Executor targeted retry acting on the stored
result sequence, and the Verifier run. Except.error models a raised
exception carrying its message; the targeted retry catches everything
internally (src/agents/executor.py lines 208-209) and is therefore
total. -/
structure OrchPhases where
  planner : Except String ExecutionPlan
  executor : ExecutionPlan → Except String (List StepResult)
  retryExec : List Nat → List StepResult → List StepResult
  verifier : ExecutionPlan → List StepResult → String → Except String FinalOutput

/-- Error message returned for an empty plan
(src/agents/orchestrator.py line 109). -/
def emptyPlanError : String := "Could not create an execution plan for this task"

/-- Retry loop (src/agents/orchestrator.py, Orchestrator._handle_retries):
while the output status is partial and budget remains, select failed
steps by list position, stop if none, re-execute the first 3 through the
targeted retry, and re-verify on the updated stored results. Returns the
final output together with the final stored results, or the message of a
raised verifier call, plus the counts of verifier and retry invocations
made inside the loop. -/
def handle_retries (ph : OrchPhases) (plan : ExecutionPlan) (task : String) :
    Nat → FinalOutput → List StepResult
      → (Except String (FinalOutput × List StepResult)) × Nat × Nat
  | 0, output, results => (Except.ok (output, results), 0, 0)
  | fuel + 1, output, results =>
    if output.status == "partial" then
      let failed := handleRetriesFailedSteps results
      if failed.isEmpty then (Except.ok (output, results), 0, 0)
      else
        let results1 := ph.retryExec (failed.take 3) results
        match ph.verifier plan results1 task with
        | Except.error e => (Except.error e, 1, 1)
        | Except.ok output1 =>
          let next := handle_retries ph plan task fuel output1 results1
          (next.1, next.2.1 + 1, next.2.2 + 1)
    else (Except.ok (output, results), 0, 0)

/-- Run trace of one orchestration: the returned result object plus how
many times the Executor (first pass or targeted retry) and the Verifier
were invoked. -/
structure RunTrace where
  result : OrchestratorResult
  executorCalls : Nat
  verifierCalls : Nat
deriving DecidableEq

/-- Full orchestration workflow (src/agents/orchestrator.py,
Orchestrator.run): plan, short-circuit to an error result on an empty
plan, execute, verify, run the retry loop when the output is partial and
budget remains, and return a complete result; any raised phase is caught
by the surrounding handler and becomes an error result carrying the
message, with no plan or output attached (lines 158-166). -/
def orchestratorRun (ph : OrchPhases) (maxRetries : Nat) (task : String) : RunTrace :=
  match ph.planner with
  | Except.error e => ⟨⟨OrchestratorState.error, none, none, some e⟩, 0, 0⟩
  | Except.ok plan =>
    if plan.steps.isEmpty then
      ⟨⟨OrchestratorState.error, none, some plan, some emptyPlanError⟩, 0, 0⟩
    else
      match ph.executor plan with
      | Except.error e => ⟨⟨OrchestratorState.error, none, none, some e⟩, 1, 0⟩
      | Except.ok results =>
        match ph.verifier plan results task with
        | Except.error e => ⟨⟨OrchestratorState.error, none, none, some e⟩, 1, 1⟩
        | Except.ok output =>
          if output.status == "partial" && maxRetries != 0 then
            match handle_retries ph plan task maxRetries output results with
            | (Except.error e, vc, rc) =>
              ⟨⟨OrchestratorState.error, none, none, some e⟩, 1 + rc, 1 + vc⟩
            | (Except.ok (outputF, _), vc, rc) =>
              ⟨⟨OrchestratorState.complete, some outputF, some plan, none⟩,
               1 + rc, 1 + vc⟩
          else
            ⟨⟨OrchestratorState.complete, some output, some plan, none⟩, 1, 1⟩

/-- C1: the run is a total function into result objects, every run ends
in the terminal state complete or error, and a raise in any phase —
planning, execution, first verification, or a verification inside the
retry loop — is captured into an error-state result carrying exactly the
raised message. -/
theorem orchestrator_run_never_raises (ph : OrchPhases) (maxRetries : Nat) (task : String) :
    ((orchestratorRun ph maxRetries task).result.state = OrchestratorState.complete
      ∨ (orchestratorRun ph maxRetries task).result.state = OrchestratorState.error)
    ∧ (∀ e : String, ph.planner = Except.error e →
        (orchestratorRun ph maxRetries task).result
          = ⟨OrchestratorState.error, none, none, some e⟩)
    ∧ (∀ (plan : ExecutionPlan) (e : String),
        ph.planner = Except.ok plan → plan.steps.isEmpty = false →
        ph.executor plan = Except.error e →
        (orchestratorRun ph maxRetries task).result
          = ⟨OrchestratorState.error, none, none, some e⟩)
    ∧ (∀ (plan : ExecutionPlan) (results : List StepResult) (e : String),
        ph.planner = Except.ok plan → plan.steps.isEmpty = false →
        ph.executor plan = Except.ok results →
        ph.verifier plan results task = Except.error e →
        (orchestratorRun ph maxRetries task).result
          = ⟨OrchestratorState.error, none, none, some e⟩)
    ∧ (∀ (plan : ExecutionPlan) (results : List StepResult) (output : FinalOutput)
          (e : String) (vc rc : Nat),
        ph.planner = Except.ok plan → plan.steps.isEmpty = false →
        ph.executor plan = Except.ok results →
        ph.verifier plan results task = Except.ok output →
        (output.status == "partial" && maxRetries != 0) = true →
        handle_retries ph plan task maxRetries output results = (Except.error e, vc, rc) →
        (orchestratorRun ph maxRetries task).result
          = ⟨OrchestratorState.error, none, none, some e⟩) := by
  refine ⟨?_, ?_, ?_, ?_, ?_⟩
  · unfold orchestratorRun
    repeat' split
    all_goals first
      | (left; rfl)
      | (right; rfl)
  · intro e hp
    simp [orchestratorRun, hp]
  · intro plan e hp he hx
    have he2 : plan.steps ≠ [] := by
      intro h; rw [h] at he; simp at he
    simp [orchestratorRun, hp, he2, hx]
  · intro plan results e hp he hx hv
    have he2 : plan.steps ≠ [] := by
      intro h; rw [h] at he; simp at he
    simp [orchestratorRun, hp, he2, hx, hv]
  · intro plan results output e vc rc hp he hx hv hc hl
    have he2 : plan.steps ≠ [] := by
      intro h; rw [h] at he; simp at he
    have hcp := (Bool.and_eq_true _ _).mp hc
    have hc1 : output.status = "partial" := by simpa using hcp.1
    have hc2 : maxRetries ≠ 0 := by simpa using hcp.2
    simp [orchestratorRun, hp, he2, hx, hv, hc1, hc2, hl]

/-- Witness for the C1 theorem at a concrete input: a run whose Planner
raises with message boom returns the error result carrying boom, and the
run indeed ends in a terminal state. -/
theorem orchestrator_run_never_raises_witness :
    (orchestratorRun
        ⟨Except.error "boom", fun _ => Except.ok [], fun _ r => r,
         fun _ _ _ => Except.error "later"⟩ 2 "demo task").result
      = ⟨OrchestratorState.error, none, none, some "boom"⟩
    ∧ ((orchestratorRun
        ⟨Except.error "boom", fun _ => Except.ok [], fun _ r => r,
         fun _ _ _ => Except.error "later"⟩ 2 "demo task").result.state
          = OrchestratorState.complete
      ∨ (orchestratorRun
        ⟨Except.error "boom", fun _ => Except.ok [], fun _ r => r,
         fun _ _ _ => Except.error "later"⟩ 2 "demo task").result.state
          = OrchestratorState.error) := by
  have h := orchestrator_run_never_raises
    ⟨Except.error "boom", fun _ => Except.ok [], fun _ r => r,
     fun _ _ _ => Except.error "later"⟩ 2 "demo task"
  exact ⟨h.2.1 "boom" rfl, h.1⟩

/-- C6: a Planner that returns a plan with zero steps makes the run
return the error-state result whose error is the fixed message, with no
output, the empty plan attached, and zero Executor and zero Verifier
invocations. -/
theorem empty_plan_short_circuit (tu eo task : String) (maxRetries : Nat)
    (ex : ExecutionPlan → Except String (List StepResult))
    (rx : List Nat → List StepResult → List StepResult)
    (vf : ExecutionPlan → List StepResult → String → Except String FinalOutput) :
    orchestratorRun ⟨Except.ok ⟨tu, [], eo⟩, ex, rx, vf⟩ maxRetries task
      = ⟨⟨OrchestratorState.error, none, some ⟨tu, [], eo⟩, some emptyPlanError⟩, 0, 0⟩ := by
  rfl

/-- Python value as it appears in a cache key after str() rendering
(src/utils/cache.py, _make_cache_key lines 33-41). Rendering is
injective across these shapes — a string, a number such as time.time(),
and an object repr carrying the object identity — so the key stores the
values themselves; the subsequent json plus md5 digest step is likewise
modelled as injective. -/
inductive PyVal where
  | str (s : String)
  | num (n : Nat)
  | obj (id : Nat)
deriving DecidableEq

/-- Cache key: function name, stringified positional arguments in order,
and keyword arguments sorted by key (src/utils/cache.py lines 35-39). -/
structure CacheKey where
  func : String
  args : List PyVal
  kwargs : List (String × PyVal)
deriving DecidableEq

/-- Insertion step of the keyword-argument sort. -/
def insertKwarg (p : String × PyVal) : List (String × PyVal) → List (String × PyVal)
  | [] => [p]
  | q :: rest => if p.1 ≤ q.1 then p :: q :: rest else q :: insertKwarg p rest

/-- Sort of the keyword arguments by key, modelling sorted(kwargs.items())
(src/utils/cache.py line 38); dictionary keys are unique so stability is
immaterial. -/
def sortKwargs : List (String × PyVal) → List (String × PyVal)
  | [] => []
  | p :: rest => insertKwarg p (sortKwargs rest)

/-- Cache key construction (src/utils/cache.py, _make_cache_key):
deterministic over the function name, the stringified positional
arguments in order, and the keyword arguments sorted by key. -/
def make_cache_key (func : String) (args : List PyVal)
    (kwargs : List (String × PyVal)) : CacheKey :=
  ⟨func, args, sortKwargs kwargs⟩

/-- Process-wide TTL cache content: key, stored value, expiry instant
(insertion time plus TTL). The LRU size bound of 1000 entries is not
modelled; the claims involve at most two entries. -/
abbrev ApiCache := List (CacheKey × RawToolResult × Nat)

/-- Cache read (cachetools TTLCache lookup as used in
src/utils/cache.py line 63): an entry is served while the current time
is strictly before its expiry instant. -/
def cacheLookup (cache : ApiCache) (key : CacheKey) (now : Nat) : Option RawToolResult :=
  match cache.find? (fun e => decide (e.1 = key ∧ now < e.2.2)) with
  | some e => some e.2.1
  | none => none

/-- Cache write (src/utils/cache.py line 72): an idempotent overwrite of
the entry for the key, expiring ttl seconds after insertion. -/
def cacheStore (cache : ApiCache) (key : CacheKey) (v : RawToolResult)
    (expiry : Nat) : ApiCache :=
  (key, v, expiry) :: cache.filter (fun e => decide (e.1 ≠ key))

/-- Outcome of one wrapped call: the returned value, the cache state
afterwards, and whether the underlying operation was invoked. -/
structure CachedCallOutcome where
  value : RawToolResult
  cache : ApiCache
  invokedUnderlying : Bool
deriving DecidableEq

/-- Cache-wrapped call (src/utils/cache.py, cached_api_call wrapper
lines 53-74): a popped skip_cache flag bypasses both the read and the
write; otherwise a fresh key is built from the arguments, a live entry
is returned as is without touching the underlying operation, and on a
miss the underlying operation runs and its result is stored with the
configured TTL. -/
def cached_api_call (ttl : Nat) (func : String)
    (f : List PyVal → List (String × PyVal) → RawToolResult)
    (args : List PyVal) (kwargs : List (String × PyVal))
    (skipCache : Bool) (now : Nat) (cache : ApiCache) : CachedCallOutcome :=
  if skipCache then ⟨f args kwargs, cache, true⟩
  else
    let key := make_cache_key func args kwargs
    match cacheLookup cache key now with
    | some v => ⟨v, cache, false⟩
    | none =>
      let v := f args kwargs
      ⟨v, cacheStore cache key v (now + ttl), true⟩

/-- C7 counterexample input: an underlying weather operation whose
result carries cached false, exactly as _timed_result builds it
(src/tools/base.py lines 118-133, cached defaults to False and no call
site of the weather, github or news tools ever passes cached=True). -/
def demoWeatherF : List PyVal → List (String × PyVal) → RawToolResult :=
  fun _ _ => ⟨true, some "15 C", none, 12, false⟩

/-- C7 counterexample: the second of two identical calls inside the TTL
window is served from the cache (the underlying operation is not
invoked) yet the returned result still carries cached = false — the hit
returns the stored result unchanged and nothing in the code ever sets
the cached flag, contradicting the claim that the second result is
marked cached true. -/
theorem cache_hit_not_marked_cached :
    (cached_api_call 600 "_get_current_weather" demoWeatherF [PyVal.num 5]
        [("city", PyVal.str "London")] false 10
        (cached_api_call 600 "_get_current_weather" demoWeatherF [PyVal.num 5]
          [("city", PyVal.str "London")] false 0 []).cache).invokedUnderlying = false
    ∧ (cached_api_call 600 "_get_current_weather" demoWeatherF [PyVal.num 5]
        [("city", PyVal.str "London")] false 10
        (cached_api_call 600 "_get_current_weather" demoWeatherF [PyVal.num 5]
          [("city", PyVal.str "London")] false 0 []).cache).value.cached = false := by
  constructor
  · decide
  · decide

/-- C7 amended: two cache-wrapped calls with identical arguments, the
second within the TTL window of the first, invoke the underlying
operation exactly once, and the second call returns the stored first
result unchanged — in particular its cached flag is whatever the
underlying operation produced, not necessarily true. -/
theorem cache_single_invocation (ttl : Nat) (func : String)
    (f : List PyVal → List (String × PyVal) → RawToolResult)
    (args : List PyVal) (kwargs : List (String × PyVal)) (t1 t2 : Nat)
    (h : t2 < t1 + ttl) :
    (cached_api_call ttl func f args kwargs false t1 []).invokedUnderlying = true
    ∧ (cached_api_call ttl func f args kwargs false t2
        (cached_api_call ttl func f args kwargs false t1 []).cache).invokedUnderlying = false
    ∧ (cached_api_call ttl func f args kwargs false t2
        (cached_api_call ttl func f args kwargs false t1 []).cache).value
      = (cached_api_call ttl func f args kwargs false t1 []).value := by
  have h1 : cached_api_call ttl func f args kwargs false t1 []
      = ⟨f args kwargs, [(make_cache_key func args kwargs, f args kwargs, t1 + ttl)], true⟩ := by
    simp [cached_api_call, cacheLookup, cacheStore]
  have h2 : cacheLookup [(make_cache_key func args kwargs, f args kwargs, t1 + ttl)]
      (make_cache_key func args kwargs) t2 = some (f args kwargs) := by
    simp [cacheLookup, List.find?, h]
  rw [h1]
  refine ⟨rfl, ?_, ?_⟩
  · simp [cached_api_call, h2]
  · simp [cached_api_call, h2]

/-- Witness for the C7 theorem at a concrete input: two identical
weather lookups at times 0 and 10 with a 600 second TTL hit the cache on
the second call and return the stored value. -/
theorem cache_single_invocation_witness :
    (cached_api_call 600 "_get_current_weather" demoWeatherF [PyVal.num 5]
        [("city", PyVal.str "London")] false 0 []).invokedUnderlying = true
    ∧ (cached_api_call 600 "_get_current_weather" demoWeatherF [PyVal.num 5]
        [("city", PyVal.str "London")] false 10
        (cached_api_call 600 "_get_current_weather" demoWeatherF [PyVal.num 5]
          [("city", PyVal.str "London")] false 0 []).cache).invokedUnderlying = false
    ∧ (cached_api_call 600 "_get_current_weather" demoWeatherF [PyVal.num 5]
        [("city", PyVal.str "London")] false 10
        (cached_api_call 600 "_get_current_weather" demoWeatherF [PyVal.num 5]
          [("city", PyVal.str "London")] false 0 []).cache).value
      = (cached_api_call 600 "_get_current_weather" demoWeatherF [PyVal.num 5]
          [("city", PyVal.str "London")] false 0 []).value :=
  cache_single_invocation 600 "_get_current_weather" demoWeatherF [PyVal.num 5]
    [("city", PyVal.str "London")] 0 10 (by decide)

/-- Weather tool dispatch of get_current_weather
(src/tools/weather_tool.py, WeatherTool.execute lines 55-73): execute
captures start_time = time.time() and passes it positionally to the
cache-wrapped _get_current_weather, so the bound-method call the wrapper
sees has positional arguments (self, start_time) and the step parameters
as keyword arguments. The wall clock is a Nat and the time of the
wrapped call equals start_time; the configured TTL is 600 seconds. -/
def weatherGetCurrentWeather (selfId : Nat)
    (f : List PyVal → List (String × PyVal) → RawToolResult)
    (startTime : Nat) (parameters : List (String × PyVal))
    (cache : ApiCache) : CachedCallOutcome :=
  cached_api_call 600 "_get_current_weather" f
    [PyVal.obj selfId, PyVal.num startTime] parameters false startTime cache

/-- C10: the captured start_time is part of the cache key, so two
weather dispatches with the same tool, action and parameters at
different times build different keys and both miss — starting from an
empty cache the first call misses and stores, and the second call
misses again and invokes the underlying operation; the TTL cache never
serves a hit across distinct tool invocations. -/
theorem weather_cache_key_time_dependent (selfId : Nat)
    (f : List PyVal → List (String × PyVal) → RawToolResult)
    (params : List (String × PyVal)) (t1 t2 : Nat) (h : t1 ≠ t2) :
    make_cache_key "_get_current_weather" [PyVal.obj selfId, PyVal.num t1] params
      ≠ make_cache_key "_get_current_weather" [PyVal.obj selfId, PyVal.num t2] params
    ∧ (weatherGetCurrentWeather selfId f t1 params []).invokedUnderlying = true
    ∧ (weatherGetCurrentWeather selfId f t2 params
        (weatherGetCurrentWeather selfId f t1 params []).cache).invokedUnderlying = true := by
  have hne : make_cache_key "_get_current_weather" [PyVal.obj selfId, PyVal.num t1] params
      ≠ make_cache_key "_get_current_weather" [PyVal.obj selfId, PyVal.num t2] params := by
    intro heq
    simp [make_cache_key] at heq
    exact h heq
  have h1 : weatherGetCurrentWeather selfId f t1 params []
      = ⟨f [PyVal.obj selfId, PyVal.num t1] params,
         [(make_cache_key "_get_current_weather" [PyVal.obj selfId, PyVal.num t1] params,
           f [PyVal.obj selfId, PyVal.num t1] params, t1 + 600)], true⟩ := by
    simp [weatherGetCurrentWeather, cached_api_call, cacheLookup, cacheStore]
  refine ⟨hne, ?_, ?_⟩
  · rw [h1]
  · rw [h1]
    simp [weatherGetCurrentWeather, cached_api_call, cacheLookup, List.find?, hne]

/-- Witness for the C10 theorem at a concrete input: two weather
lookups for London at times 0 and 1 get different cache keys and both
invoke the underlying operation. -/
theorem weather_cache_key_time_dependent_witness :
    make_cache_key "_get_current_weather" [PyVal.obj 0, PyVal.num 0]
        [("city", PyVal.str "London")]
      ≠ make_cache_key "_get_current_weather" [PyVal.obj 0, PyVal.num 1]
        [("city", PyVal.str "London")]
    ∧ (weatherGetCurrentWeather 0 demoWeatherF 0
        [("city", PyVal.str "London")] []).invokedUnderlying = true
    ∧ (weatherGetCurrentWeather 0 demoWeatherF 1 [("city", PyVal.str "London")]
        (weatherGetCurrentWeather 0 demoWeatherF 0
          [("city", PyVal.str "London")] []).cache).invokedUnderlying = true :=
  weather_cache_key_time_dependent 0 demoWeatherF [("city", PyVal.str "London")] 0 1
    (by decide)

end AiOps
